import Mathlib

/-!
Shallow embedding of the simple-iot-platform core (src/storage.py and
src/app.py): the file-backed document store with its mutators, the
telemetry query logic, and the Flask-level handlers for registration and
ingestion.  Machine state (the on-disk JSON document) is passed
explicitly; Python exceptions become `Except`; the external ISO-8601
datetime parser (`dateutil.parser.isoparse`) is a parameter mapping
strings to an abstract linearly ordered time type.
-/

namespace IotPlatform

/-- String-keyed association list standing for a Python dict; lookup finds
the first binding, and the insert/update operations below keep keys unique
exactly as a dict does. -/
def alook {β : Type} : List (String × β) → String → Option β
  | [], _ => none
  | (k, v) :: rest, key => if k = key then some v else alook rest key

/-- Dict assignment `m[k] = v`: replaces the binding in place if the key is
present, otherwise appends it at the end (dict insertion order). -/
def aset {β : Type} : List (String × β) → String → β → List (String × β)
  | [], k, v => [(k, v)]
  | (k', v') :: rest, k, v =>
      if k' = k then (k, v) :: rest else (k', v') :: aset rest k v

/-- Python truthiness of an optional string: `None` and `""` are falsy. -/
def truthy : Option String → Bool
  | none => false
  | some s => !s.isEmpty

/-- `meta` dicts in the store: string keys to string values (the claims only
inspect string-valued fields such as `api_key` and `name`). -/
abbrev MetaMap := List (String × String)

/-- Opaque telemetry payload mapping (the `data` field). -/
abbrev PayloadData := List (String × String)

/-- A device entry in the document: `meta` mapping and the immutable
`registered_at` timestamp string (src/storage.py lines 50-53). -/
structure DeviceRecord where
  meta : MetaMap
  registered_at : String
deriving DecidableEq, Repr

/-- One telemetry record as built by `telemetry_ingest`
(src/app.py lines 51-54). -/
structure TelemetryRecord where
  timestamp : String
  data : PayloadData
deriving DecidableEq, Repr

/-- The persisted root document `{devices, telemetry}`. -/
structure Document where
  devices : List (String × DeviceRecord)
  telemetry : List (String × List TelemetryRecord)
deriving DecidableEq, Repr

/-- The document the store initializes when the backing file is absent
(src/storage.py lines 11-15). -/
def initialDoc : Document := ⟨[], []⟩

/-- Python dict update `m[k] = v` written as `dinsert`: used for
`meta["api_key"] = api_key` and for building `{"name": name, **meta}` in
src/app.py lines 22-24.  Keeps one binding per key. -/
def dinsert (m : MetaMap) (k v : String) : MetaMap :=
  (k, v) :: m.filter (fun p => decide (p.1 ≠ k))

/-- Errors raised by the storage mutators: `ValueError("Device already
exists")` and `KeyError("Unknown device")`. -/
inductive StoreError where
  | deviceExists
  | unknownDevice
deriving DecidableEq, Repr

/-- The mutator of `storage.register_device` (src/storage.py lines 46-57):
fails if the id is already a device key, otherwise inserts the DeviceRecord
with `registered_at = utcnow().isoformat() + "Z"` and setdefaults an empty
telemetry bucket.  `now` is the isoformat part of the current UTC time. -/
def register_device (device_id : String) (meta : MetaMap) (now : String)
    (d : Document) : Except StoreError Document :=
  match alook d.devices device_id with
  | some _ => .error .deviceExists
  | none =>
      let telemetry' :=
        match alook d.telemetry device_id with
        | some _ => d.telemetry
        | none => d.telemetry ++ [(device_id, [])]
      .ok ⟨(device_id, ⟨meta, now ++ "Z"⟩) :: d.devices, telemetry'⟩

/-- The mutator of `storage.store_telemetry` (src/storage.py lines 63-71):
fails on an unknown device, otherwise setdefaults the bucket and appends
the payload. -/
def store_telemetry (device_id : String) (payload : TelemetryRecord)
    (d : Document) : Except StoreError Document :=
  match alook d.devices device_id with
  | none => .error .unknownDevice
  | some _ =>
      let bucket := (alook d.telemetry device_id).getD []
      .ok ⟨d.devices, aset d.telemetry device_id (bucket ++ [payload])⟩

/-- `storage.with_lock_write` (src/storage.py lines 36-43) as a state
transformer on the stored document: the mutator runs on the current
document and `write_atomic` replaces it only on success; an exception
propagates and the stored document stays what it was. -/
def with_lock_write (st : Document)
    (mutator_fn : Document → Except StoreError Document) :
    Except StoreError Document × Document :=
  match mutator_fn st with
  | .ok d => (.ok d, d)
  | .error e => (.error e, st)

/-- `storage.list_devices` (src/storage.py lines 59-61): the devices
mapping of a locked read. -/
def list_devices (d : Document) : List (String × DeviceRecord) := d.devices

/-- Python slice `items[-limit:]` for an arbitrary integer `limit`
(src/storage.py line 101): a negative slice start is clamped by adding the
length, a non-negative one is clamped to the length. -/
def pyTail {α : Type} (items : List α) (limit : Int) : List α :=
  let n : Int := items.length
  let start : Int := -limit
  let start2 : Int := if start < 0 then max 0 (n + start) else min start n
  items.drop start2.toNat

/-- The per-record filter loop of `get_telemetry` (src/storage.py lines
88-98): a record with a falsy or unparsable timestamp is skipped; a record
below a parsed start bound or above a parsed end bound is skipped;
everything else is kept in order. -/
def timeFilter {DT : Type} [LinearOrder DT] (parse : String → Option DT)
    (s_dt e_dt : Option DT) (items : List TelemetryRecord) :
    List TelemetryRecord :=
  items.filter (fun it =>
    let tdt : Option DT := if it.timestamp.isEmpty then none else parse it.timestamp
    match tdt with
    | none => false
    | some t =>
        (match s_dt with | some sv => decide (¬ t < sv) | none => true)
        && (match e_dt with | some ev => decide (¬ ev < t) | none => true))

/-- The filtering stage of `get_telemetry` (src/storage.py lines 85-99):
applied only when a truthy start or end bound is supplied; a bound that
fails to parse becomes `None` and imposes no constraint. -/
def filterStage {DT : Type} [LinearOrder DT] (parse : String → Option DT)
    (start_iso end_iso : Option String) (items : List TelemetryRecord) :
    List TelemetryRecord :=
  if truthy start_iso || truthy end_iso then
    timeFilter parse
      (if truthy start_iso then parse (start_iso.getD "") else none)
      (if truthy end_iso then parse (end_iso.getD "") else none)
      items
  else items

/-- `storage.get_telemetry` (src/storage.py lines 73-101): empty result
for a missing bucket, otherwise time filter then the last `limit` entries.
`parse` abstracts `dateutil.parser.isoparse` into an arbitrary linearly
ordered time type. -/
def get_telemetry {DT : Type} [LinearOrder DT] (parse : String → Option DT)
    (d : Document) (device_id : String) (start_iso end_iso : Option String)
    (limit : Int) : List TelemetryRecord :=
  match alook d.telemetry device_id with
  | none => []
  | some items => pyTail (filterStage parse start_iso end_iso items) limit

/-- Errors the HTTP handlers in src/app.py report: the spec's
`MissingDeviceIdError` (400), `DeviceExistsError` (409),
`UnknownDeviceError` (404) and `InvalidApiKeyError` (401). -/
inductive ApiError where
  | missingDeviceId
  | deviceExists
  | unknownDevice
  | invalidApiKey
deriving DecidableEq, Repr

/-- The `POST /devices` handler (src/app.py lines 14-27): the device id is
the supplied one when truthy else a fresh uuid (`fresh_id`), the fresh
`api_key` (`uuid4().hex`, a parameter here) is injected into `meta`, and
the stored meta is `{"name": name, **meta}`.  Returns the document after
the mutation together with the response pair `(device_id, api_key)`. -/
def app_register (st : Document) (device_id_opt : Option String)
    (fresh_id name : String) (meta0 : MetaMap) (api_key now : String) :
    Except ApiError (Document × String × String) :=
  let device_id := if truthy device_id_opt then device_id_opt.getD "" else fresh_id
  let meta1 := dinsert meta0 "api_key" api_key
  let merged := meta1.foldl (fun acc kv => dinsert acc kv.1 kv.2) [("name", name)]
  match register_device device_id merged now st with
  | .error _ => .error .deviceExists
  | .ok st' => .ok (st', device_id, api_key)

/-- The `POST /telemetry` handler (src/app.py lines 34-59): rejects a falsy
device id, an unknown device, and a supplied key differing from a truthy
stored `api_key`; then builds the record with defaulted timestamp and data
and appends it through `store_telemetry`.  `api_key` is the optional
`X-API-KEY` header; `now` is the isoformat part of the current UTC time. -/
def telemetry_ingest (st : Document) (device_id_opt api_key ts_opt : Option String)
    (data_opt : Option PayloadData) (now : String) : Except ApiError Document :=
  if truthy device_id_opt = false then .error .missingDeviceId
  else
    let device_id := device_id_opt.getD ""
    match alook st.devices device_id with
    | none => .error .unknownDevice
    | some dev =>
        let expected_key := alook dev.meta "api_key"
        let bad : Bool :=
          match expected_key with
          | some ek => !ek.isEmpty && decide (api_key ≠ some ek)
          | none => false
        if bad then .error .invalidApiKey
        else
          let telemetry : TelemetryRecord :=
            ⟨if truthy ts_opt then ts_opt.getD "" else now ++ "Z", data_opt.getD []⟩
          match store_telemetry device_id telemetry st with
          | .ok st' => .ok st'
          | .error _ => .error .unknownDevice

/-! ### The backing file and `read_all` (src/storage.py lines 11-20)

For claim C8 the file layer is modelled below the typed document: the file
is absent, or holds text that fails to parse as JSON, or holds text whose
parse is some JSON value (`json.load` only checks JSON well-formedness,
nothing about the document shape). -/

/-- JSON values as produced by `json.load`. -/
inductive Json where
  | null
  | bool (b : Bool)
  | num (n : Int)
  | str (s : String)
  | arr (elems : List Json)
  | obj (fields : List (String × Json))

/-- The backing-file state: `none` when the file does not exist,
`some none` when it exists but its text is not valid JSON,
`some (some j)` when its text parses to the JSON value `j`. -/
abbrev FileState := Option (Option Json)

/-- `json.JSONDecodeError` surfaced by `read_all`, the spec's
`CorruptStoreError`. -/
inductive ReadError where
  | corruptStore
deriving DecidableEq, Repr

/-- The JSON document `_ensure_datafile` writes when the file is missing:
`{"devices": {}, "telemetry": {}}`. -/
def initialJson : Json := .obj [("devices", .obj []), ("telemetry", .obj [])]

/-- `storage._ensure_datafile` (src/storage.py lines 11-15): creates the
file with the initial document only when it does not exist. -/
def ensure_datafile (fs : FileState) : FileState :=
  match fs with
  | none => some (some initialJson)
  | some c => some c

/-- `storage.read_all` (src/storage.py lines 17-20): ensure the file
exists, then `json.load` it; an unparsable file raises, and whatever JSON
value the text parses to is returned unchecked. -/
def read_all (fs : FileState) : Except ReadError Json × FileState :=
  match ensure_datafile fs with
  | some (some j) => (.ok j, some (some j))
  | some none => (.error .corruptStore, some none)
  | none => (.error .corruptStore, none)

/-- Whether a JSON value has the document shape the spec expects: an
object whose `devices` and `telemetry` fields are objects. -/
def isDocShape : Json → Bool
  | .obj fields =>
      (match alook fields "devices" with
       | some (Json.obj _) => true
       | _ => false)
      && (match alook fields "telemetry" with
          | some (Json.obj _) => true
          | _ => false)
  | _ => false

/-! ### Reachable documents and sequential runs -/

/-- Documents reachable from the initial empty document through the two
write paths `register_device` and `store_telemetry`. -/
inductive Reachable : Document → Prop where
  | init : Reachable initialDoc
  | reg (d d' : Document) (id : String) (m : MetaMap) (now : String)
      (hd : Reachable d) (h : register_device id m now d = .ok d') :
      Reachable d'
  | ing (d d' : Document) (id : String) (p : TelemetryRecord)
      (hd : Reachable d) (h : store_telemetry id p d = .ok d') :
      Reachable d'

/-- The telemetry-keys-are-device-keys invariant (spec section 3, claim
C9 strengthens it to all keys, empty buckets included). -/
def docInv (d : Document) : Prop :=
  ∀ k : String, (alook d.telemetry k).isSome → (alook d.devices k).isSome

/-- A serialized run of `register_device` calls, one per id, in the given
order; `none` when any call raises. -/
def regAll (now : String) : Document → List String → Option Document
  | st, [] => some st
  | st, id :: rest =>
      match register_device id [] now st with
      | .ok st' => regAll now st' rest
      | .error _ => none

/-- A serialized run of `store_telemetry` calls against one device, in the
given order; `none` when any call raises. -/
def ingAll (device_id : String) : Document → List TelemetryRecord → Option Document
  | st, [] => some st
  | st, p :: rest =>
      match store_telemetry device_id p st with
      | .ok st' => ingAll device_id st' rest
      | .error _ => none

/-- The spec-side keep predicate of a time-filtered query: a record
survives iff its timestamp parses and is at or above a given start bound
and at or below a given end bound (inclusive). -/
def specKeep {DT : Type} [LinearOrder DT] (parse : String → Option DT)
    (s_dt e_dt : Option DT) (it : TelemetryRecord) : Bool :=
  match parse it.timestamp with
  | none => false
  | some t =>
      (match s_dt with | some sv => decide (sv ≤ t) | none => true)
      && (match e_dt with | some ev => decide (t ≤ ev) | none => true)

/-! ### Concrete fixtures used to exercise the theorems -/

/-- Accumulator pass of `parseNat`: all-digit strings only. -/
def parseDigitsAux : List Char → Nat → Option Nat
  | [], acc => some acc
  | c :: rest, acc =>
      if c.isDigit then parseDigitsAux rest (acc * 10 + (c.toNat - 48)) else none

/-- A concrete timestamp parser instantiating the abstract ISO parser in
witnesses: non-empty all-digit strings parse to the number they denote,
everything else (the empty string included) fails to parse. -/
def parseNat (s : String) : Option Nat :=
  match s.data with
  | [] => none
  | cs => parseDigitsAux cs 0

/-- Five telemetry records with numeric-string timestamps in arrival
order. -/
def docWItems : List TelemetryRecord :=
  [⟨"1", []⟩, ⟨"2", []⟩, ⟨"3", []⟩, ⟨"4", []⟩, ⟨"5", []⟩]

/-- A registered device whose stored `api_key` is `"k1"`. -/
def devW : DeviceRecord := ⟨[("api_key", "k1")], "2024-01-01T00:00:00Z"⟩

/-- A document with one device `"d"` holding the five records. -/
def docW : Document := ⟨[("d", devW)], [("d", docWItems)]⟩

/-- A device with no stored `api_key` (open access). -/
def devOpen : DeviceRecord := ⟨[("name", "o")], "rZ"⟩

/-- A document with only the open-access device and no telemetry. -/
def docOpen : Document := ⟨[("o", devOpen)], []⟩

/-- The document after registering `"d1"` with empty meta at time `"t"`
on the initial document. -/
def doc1 : Document := ⟨[("d1", ⟨[], "tZ"⟩)], [("d1", [])]⟩

/-- The document `app_register` produces from the initial document for
device `"d1"`, name `"x"`, empty caller meta, key `"key1"`, time `"t"`. -/
def doc1App : Document :=
  ⟨[("d1", ⟨[("api_key", "key1"), ("name", "x")], "tZ"⟩)], [("d1", [])]⟩

/-- The document after ingesting one record for the open-access device. -/
def docOpenIng : Document := ⟨[("o", devOpen)], [("o", [⟨"nowZ", []⟩])]⟩

/-! ### Association-list lemmas -/

theorem alook_cons_self {β : Type} (k : String) (v : β) (l : List (String × β)) :
    alook ((k, v) :: l) k = some v := by
  simp [alook]

theorem alook_cons_ne {β : Type} (k k' : String) (v : β) (l : List (String × β))
    (h : k ≠ k') : alook ((k, v) :: l) k' = alook l k' := by
  simp [alook, h]

theorem alook_append_right {β : Type} (l1 l2 : List (String × β)) (k : String)
    (h : alook l1 k = none) : alook (l1 ++ l2) k = alook l2 k := by
  induction l1 with
  | nil => simp
  | cons p rest ih =>
      obtain ⟨a, b⟩ := p
      by_cases hak : a = k
      · subst hak; rw [alook_cons_self] at h; cases h
      · rw [List.cons_append, alook_cons_ne _ _ _ _ hak]
        rw [alook_cons_ne _ _ _ _ hak] at h
        exact ih h

theorem alook_append_single_ne {β : Type} (l : List (String × β)) (k0 k : String)
    (v : β) (h : k0 ≠ k) : alook (l ++ [(k0, v)]) k = alook l k := by
  induction l with
  | nil => simp [alook, h]
  | cons p rest ih =>
      obtain ⟨a, b⟩ := p
      by_cases hak : a = k
      · subst hak; simp [alook]
      · rw [List.cons_append, alook_cons_ne _ _ _ _ hak, alook_cons_ne _ _ _ _ hak]
        exact ih

theorem aset_cons_eq {β : Type} (a k : String) (b v : β) (rest : List (String × β))
    (h : a = k) : aset ((a, b) :: rest) k v = (k, v) :: rest := by
  simp [aset, h]

theorem aset_cons_ne {β : Type} (a k : String) (b v : β) (rest : List (String × β))
    (h : a ≠ k) : aset ((a, b) :: rest) k v = (a, b) :: aset rest k v := by
  simp [aset, h]

theorem alook_aset_self {β : Type} (l : List (String × β)) (k : String) (v : β) :
    alook (aset l k v) k = some v := by
  induction l with
  | nil => simp [aset, alook]
  | cons p rest ih =>
      obtain ⟨a, b⟩ := p
      by_cases hak : a = k
      · rw [aset_cons_eq _ _ _ _ _ hak, alook_cons_self]
      · rw [aset_cons_ne _ _ _ _ _ hak, alook_cons_ne _ _ _ _ hak]
        exact ih

theorem alook_aset_ne {β : Type} (l : List (String × β)) (k k' : String) (v : β)
    (h : k ≠ k') : alook (aset l k v) k' = alook l k' := by
  induction l with
  | nil => simp [aset, alook, h]
  | cons p rest ih =>
      obtain ⟨a, b⟩ := p
      by_cases hak : a = k
      · rw [aset_cons_eq _ _ _ _ _ hak, alook_cons_ne _ _ _ _ h]
        subst hak
        rw [alook_cons_ne _ _ _ _ h]
      · rw [aset_cons_ne _ _ _ _ _ hak]
        by_cases hak' : a = k'
        · subst hak'; rw [alook_cons_self, alook_cons_self]
        · rw [alook_cons_ne _ _ _ _ hak', alook_cons_ne _ _ _ _ hak']
          exact ih

theorem alook_filter_ne (m : MetaMap) (k k' : String) (h : k ≠ k') :
    alook (m.filter (fun p => decide (p.1 ≠ k))) k' = alook m k' := by
  induction m with
  | nil => simp
  | cons p rest ih =>
      obtain ⟨a, b⟩ := p
      by_cases hak : a = k
      · subst hak
        rw [List.filter_cons_of_neg (by simp)]
        rw [alook_cons_ne _ _ _ _ h]
        exact ih
      · rw [List.filter_cons_of_pos (by simp [hak])]
        by_cases hak' : a = k'
        · subst hak'; rw [alook_cons_self, alook_cons_self]
        · rw [alook_cons_ne _ _ _ _ hak', alook_cons_ne _ _ _ _ hak']
          exact ih

theorem alook_dinsert_self (m : MetaMap) (k v : String) :
    alook (dinsert m k v) k = some v := by
  unfold dinsert; exact alook_cons_self _ _ _

theorem alook_dinsert_ne (m : MetaMap) (k k' v : String) (h : k ≠ k') :
    alook (dinsert m k v) k' = alook m k' := by
  unfold dinsert
  rw [alook_cons_ne _ _ _ _ h]
  exact alook_filter_ne m k k' h

theorem alook_foldl_dinsert_not_mem (l : MetaMap) (init0 : MetaMap) (k : String)
    (h : ∀ p ∈ l, p.1 ≠ k) :
    alook (l.foldl (fun acc kv => dinsert acc kv.1 kv.2) init0) k = alook init0 k := by
  induction l generalizing init0 with
  | nil => rfl
  | cons p rest ih =>
      rw [List.foldl_cons]
      rw [ih _ (fun q hq => h q (List.mem_cons_of_mem _ hq))]
      exact alook_dinsert_ne _ _ _ _ (h p (List.mem_cons_self _ _))

theorem merged_meta_api_key (meta0 : MetaMap) (name api_key : String) :
    alook ((dinsert meta0 "api_key" api_key).foldl
        (fun acc kv => dinsert acc kv.1 kv.2) [("name", name)]) "api_key"
      = some api_key := by
  rw [show dinsert meta0 "api_key" api_key
        = ("api_key", api_key) :: meta0.filter (fun p => decide (p.1 ≠ "api_key"))
      from rfl]
  rw [List.foldl_cons]
  rw [alook_foldl_dinsert_not_mem _ _ _ (by
    intro p hp
    exact of_decide_eq_true (List.mem_filter.mp hp).2)]
  exact alook_dinsert_self _ _ _

/-! ### Slice lemmas for `items[-limit:]` -/

theorem pyTail_of_length_le {α : Type} (l : List α) (k : Int)
    (h : (l.length : Int) ≤ k) : pyTail l k = l := by
  simp only [pyTail]
  have h2 : (if -k < 0 then max 0 ((l.length : Int) + -k)
             else min (-k) (l.length : Int)).toNat = 0 := by
    split <;> omega
  rw [h2, List.drop_zero]

theorem pyTail_pos {α : Type} (l : List α) (k : Int) (hk : 0 < k) :
    pyTail l k = l.drop (l.length - k.toNat) := by
  simp only [pyTail]
  have h1 : -k < 0 := by omega
  rw [if_pos h1]
  congr 1
  omega

theorem pyTail_zero {α : Type} (l : List α) : pyTail l 0 = l := by
  simp only [pyTail]
  norm_num

theorem pyTail_neg {α : Type} (l : List α) (k : Nat) :
    pyTail l (-(k : Int)) = l.drop (min k l.length) := by
  simp only [pyTail]
  have h2 : (if -(-(k : Int)) < 0 then max 0 ((l.length : Int) + -(-(k : Int)))
             else min (-(-(k : Int))) (l.length : Int)).toNat = min k l.length := by
    split <;> omega
  rw [h2]

/-! ### Shape of successful mutations -/

theorem register_ok (id : String) (m : MetaMap) (now : String) (st st1 : Document)
    (h : register_device id m now st = .ok st1) :
    alook st.devices id = none ∧
    st1.devices = (id, ⟨m, now ++ "Z"⟩) :: st.devices ∧
    ((alook st.telemetry id ≠ none ∧ st1.telemetry = st.telemetry) ∨
     (alook st.telemetry id = none ∧ st1.telemetry = st.telemetry ++ [(id, [])])) := by
  unfold register_device at h
  cases hx : alook st.devices id with
  | some v => rw [hx] at h; cases h
  | none =>
      rw [hx] at h
      cases hy : alook st.telemetry id with
      | some w =>
          rw [hy] at h
          simp only at h
          injection h with h
          refine ⟨rfl, ?_, Or.inl ⟨by simp [hy], ?_⟩⟩ <;> rw [← h]
      | none =>
          rw [hy] at h
          simp only at h
          injection h with h
          refine ⟨rfl, ?_, Or.inr ⟨rfl, ?_⟩⟩ <;> rw [← h]

theorem store_ok (id : String) (p : TelemetryRecord) (st st1 : Document)
    (h : store_telemetry id p st = .ok st1) :
    (alook st.devices id).isSome = true ∧
    st1.devices = st.devices ∧
    st1.telemetry = aset st.telemetry id (((alook st.telemetry id).getD []) ++ [p]) := by
  unfold store_telemetry at h
  cases hx : alook st.devices id with
  | none => rw [hx] at h; cases h
  | some v =>
      rw [hx] at h
      simp only at h
      injection h with h
      exact ⟨rfl, by rw [← h], by rw [← h]⟩

theorem store_ok_of_some (id : String) (p : TelemetryRecord) (st : Document)
    (v : DeviceRecord) (h : alook st.devices id = some v) :
    store_telemetry id p st
      = .ok ⟨st.devices, aset st.telemetry id (((alook st.telemetry id).getD []) ++ [p])⟩ := by
  unfold store_telemetry
  rw [h]

/-! ### The filter loop agrees with the spec's keep predicate -/

theorem timeFilter_eq_filter_specKeep {DT : Type} [LinearOrder DT]
    (parse : String → Option DT) (s_dt e_dt : Option DT)
    (items : List TelemetryRecord) (hpe : parse "" = none) :
    timeFilter parse s_dt e_dt items = items.filter (specKeep parse s_dt e_dt) := by
  unfold timeFilter
  refine List.filter_congr ?_
  intro it _
  simp only
  unfold specKeep
  by_cases hts : it.timestamp = ""
  · rw [hts, hpe]
    rfl
  · have hemp : ¬ (it.timestamp.isEmpty = true) :=
      fun hc => hts ((String.isEmpty_iff _).mp hc)
    rw [if_neg hemp]
    cases hp : parse it.timestamp with
    | none => rfl
    | some t =>
        simp only
        congr 1
        · cases s_dt with
          | none => rfl
          | some sv => rw [decide_eq_decide]; exact not_lt
        · cases e_dt with
          | none => rfl
          | some ev => rw [decide_eq_decide]; exact not_lt

theorem pyTail_nil {α : Type} (k : Int) : pyTail ([] : List α) k = [] := by
  simp only [pyTail, List.drop_nil]

theorem filterStage_nil {DT : Type} [LinearOrder DT] (parse : String → Option DT)
    (start_iso end_iso : Option String) :
    filterStage parse start_iso end_iso [] = [] := by
  unfold filterStage timeFilter
  split <;> rfl

/-! ### The claims -/

/-- C1: for every document state, a second `register_device` with the same
device id fails with the device-exists error, and the failed attempt run
through `with_lock_write` leaves the stored document unchanged (the
mutator raises before the write step, so no write occurs). -/
theorem claim1_register_twice (st st1 : Document) (id : String)
    (m1 m2 : MetaMap) (n1 n2 : String)
    (h : register_device id m1 n1 st = .ok st1) :
    register_device id m2 n2 st1 = .error .deviceExists ∧
    with_lock_write st1 (register_device id m2 n2) = (.error .deviceExists, st1) := by
  obtain ⟨-, hdev, -⟩ := register_ok id m1 n1 st st1 h
  have herr : register_device id m2 n2 st1 = .error .deviceExists := by
    unfold register_device
    rw [hdev, alook_cons_self]
  refine ⟨herr, ?_⟩
  unfold with_lock_write
  rw [herr]

/-- Witness for C1: registering `"d1"` on the initial document succeeds,
and the second registration fails and leaves the stored document as it
was. -/
theorem claim1_register_twice_witness :
    register_device "d1" [] "u" doc1 = .error .deviceExists ∧
    with_lock_write doc1 (register_device "d1" [] "u") = (.error .deviceExists, doc1) :=
  claim1_register_twice initialDoc doc1 "d1" [] [] "t" "u" rfl

/-- C7: a device id with no telemetry bucket yields the empty sequence
from `get_telemetry` for every combination of bounds and limit, without
an error; a device with an empty bucket is indistinguishable from it. -/
theorem claim7_missing_bucket {DT : Type} [LinearOrder DT]
    (parse : String → Option DT) (st : Document) (device_id : String)
    (h : alook st.telemetry device_id = none) :
    (∀ (start_iso end_iso : Option String) (limit : Int),
        get_telemetry parse st device_id start_iso end_iso limit = []) ∧
    (∀ st2 : Document, alook st2.telemetry device_id = some [] →
        ∀ (start_iso end_iso : Option String) (limit : Int),
          get_telemetry parse st2 device_id start_iso end_iso limit
            = get_telemetry parse st device_id start_iso end_iso limit) := by
  have hempty : ∀ (s e : Option String) (limit : Int),
      get_telemetry parse st device_id s e limit = [] := by
    intro s e limit
    unfold get_telemetry
    rw [h]
  refine ⟨hempty, ?_⟩
  intro st2 h2 s e limit
  rw [hempty]
  unfold get_telemetry
  rw [h2]
  simp only [filterStage_nil, pyTail_nil]

/-- Witness for C7: querying a device with no bucket returns the empty
list, with a time bound and a small limit supplied. -/
theorem claim7_missing_bucket_witness :
    get_telemetry parseNat docOpen "nope" (some "1") none 5 = [] :=
  (claim7_missing_bucket parseNat docOpen "nope" (by decide)).1 (some "1") none 5

/-- C8 (amended): `read_all` initializes a missing backing file to the
initial document and returns it; it fails with the corrupt-store error
exactly when the file exists but its text is not valid JSON; any JSON
value the text parses to — of the expected document shape or not — is
returned without error. -/
theorem claim8_read_all_amended :
    read_all none = (.ok initialJson, some (some initialJson)) ∧
    read_all (some none) = (.error .corruptStore, some none) ∧
    (∀ j : Json, read_all (some (some j)) = (.ok j, some (some j))) :=
  ⟨rfl, rfl, fun _ => rfl⟩

/-- Counterexample for C8: a backing file holding `[]` is valid JSON but
not of the expected document structure, yet `read_all` returns it
successfully instead of failing with the corrupt-store error. -/
theorem claim8_read_all_counterexample :
    read_all (some (some (Json.arr [])))
        = (.ok (Json.arr []), some (some (Json.arr []))) ∧
    isDocShape (Json.arr []) = false :=
  ⟨rfl, rfl⟩

/-- C3: when a truthy start and/or end bound is supplied and parses, the
query keeps exactly the records whose timestamp parses and lies within the
inclusive bounds, preserving arrival order; without bounds no record is
excluded.  `limit` is taken large enough that the slice stage does not
truncate (the filtering claim; truncation is claim C4). -/
theorem claim3_time_filter {DT : Type} [LinearOrder DT]
    (parse : String → Option DT) (st : Document) (device_id : String)
    (start_iso end_iso : Option String) (items : List TelemetryRecord)
    (limit : Int)
    (hb : alook st.telemetry device_id = some items)
    (hpe : parse "" = none)
    (hs : truthy start_iso = true → (parse (start_iso.getD "")).isSome = true)
    (he : truthy end_iso = true → (parse (end_iso.getD "")).isSome = true)
    (hlim : (items.length : Int) ≤ limit) :
    get_telemetry parse st device_id start_iso end_iso limit
      = if truthy start_iso || truthy end_iso then
          items.filter (specKeep parse
            (if truthy start_iso then parse (start_iso.getD "") else none)
            (if truthy end_iso then parse (end_iso.getD "") else none))
        else items := by
  unfold get_telemetry
  rw [hb]
  show pyTail (filterStage parse start_iso end_iso items) limit = _
  unfold filterStage
  by_cases hc : (truthy start_iso || truthy end_iso) = true
  · rw [if_pos hc, if_pos hc]
    rw [timeFilter_eq_filter_specKeep _ _ _ _ hpe]
    apply pyTail_of_length_le
    calc ((items.filter _).length : Int) ≤ (items.length : Int) := by
          exact_mod_cast List.length_filter_le _ _
      _ ≤ limit := hlim
  · rw [if_neg hc, if_neg hc]
    exact pyTail_of_length_le _ _ hlim

/-- Witness for C3: on the five stored records with start bound `"2"`
under a numeric timestamp parser, the query keeps exactly the records with
timestamp at least 2, in arrival order. -/
theorem claim3_time_filter_witness :
    get_telemetry parseNat docW "d" (some "2") none 100
      = [⟨"2", []⟩, ⟨"3", []⟩, ⟨"4", []⟩, ⟨"5", []⟩] := by
  have h := claim3_time_filter parseNat docW "d" (some "2") none
    docWItems 100 (by decide) (by decide) (by decide) (by decide) (by decide)
  rw [h]
  decide

/-- C4 (amended): after the filtering stage, a positive `limit` yields the
last `min limit n` matching records in arrival order (most recent `limit`,
oldest of that subset first); a non-positive limit is neither rejected nor
clamped to the default: limit `0` yields all matching records and limit
`-k` drops the first `min k n` matching records. -/
theorem claim4_limit_amended {DT : Type} [LinearOrder DT]
    (parse : String → Option DT) (st : Document) (device_id : String)
    (start_iso end_iso : Option String) (items m : List TelemetryRecord)
    (hb : alook st.telemetry device_id = some items)
    (hm : m = filterStage parse start_iso end_iso items) :
    (∀ limit : Int, 0 < limit →
        get_telemetry parse st device_id start_iso end_iso limit
          = m.drop (m.length - limit.toNat)) ∧
    get_telemetry parse st device_id start_iso end_iso 0 = m ∧
    (∀ k : Nat, get_telemetry parse st device_id start_iso end_iso (-(k : Int))
        = m.drop (min k m.length)) := by
  subst hm
  unfold get_telemetry
  rw [hb]
  exact ⟨fun limit hl => pyTail_pos _ _ hl, pyTail_zero _, fun k => pyTail_neg _ _⟩

/-- Witness for C4's amended statement: limit 2 on the five matching
records returns exactly the two most recent, oldest of the pair first. -/
theorem claim4_limit_amended_witness :
    get_telemetry parseNat docW "d" none none 2 = [⟨"4", []⟩, ⟨"5", []⟩] := by
  have h := (claim4_limit_amended parseNat docW "d" none none
    docWItems docWItems (by decide) (by decide)).1 2 (by decide)
  rw [h]
  decide

/-- Counterexample for C4 as stated: with the non-positive limit `-2`, the
query neither fails nor clamps to the default of 100 (which would return
all five matching records); it drops the first two records and returns
three. -/
theorem claim4_limit_counterexample :
    get_telemetry parseNat docW "d" none none (-2)
        = [⟨"3", []⟩, ⟨"4", []⟩, ⟨"5", []⟩] ∧
    (get_telemetry parseNat docW "d" none none (-2)).length ≠ 5 := by
  constructor <;> decide

/-- C2: the ingestion checks in order — a falsy device id fails as a
missing id; an unregistered id fails as an unknown device for every
supplied key; a non-empty stored `api_key` differing from the supplied key
fails as an invalid key; an absent or empty stored `api_key` skips the
check and ingestion proceeds. -/
theorem claim2_ingest_checks (st : Document)
    (device_id_opt api_key ts_opt : Option String)
    (data_opt : Option PayloadData) (now : String) :
    (truthy device_id_opt = false →
        telemetry_ingest st device_id_opt api_key ts_opt data_opt now
          = .error .missingDeviceId) ∧
    (∀ did, device_id_opt = some did → truthy device_id_opt = true →
        alook st.devices did = none →
        telemetry_ingest st device_id_opt api_key ts_opt data_opt now
          = .error .unknownDevice) ∧
    (∀ did dev ek, device_id_opt = some did → truthy device_id_opt = true →
        alook st.devices did = some dev →
        alook dev.meta "api_key" = some ek → ek ≠ "" → api_key ≠ some ek →
        telemetry_ingest st device_id_opt api_key ts_opt data_opt now
          = .error .invalidApiKey) ∧
    (∀ did dev, device_id_opt = some did → truthy device_id_opt = true →
        alook st.devices did = some dev →
        (alook dev.meta "api_key" = none ∨ alook dev.meta "api_key" = some "") →
        ∃ st', telemetry_ingest st device_id_opt api_key ts_opt data_opt now
          = .ok st') := by
  refine ⟨?_, ?_, ?_, ?_⟩
  · intro hf
    unfold telemetry_ingest
    rw [if_pos hf]
  · intro did hEq hT hNone
    subst hEq
    unfold telemetry_ingest
    rw [if_neg (by simp [hT])]
    simp only [Option.getD_some]
    rw [hNone]
  · intro did dev ek hEq hT hSome hKey hNe hMiss
    subst hEq
    unfold telemetry_ingest
    rw [if_neg (by simp [hT])]
    simp only [Option.getD_some]
    rw [hSome]
    simp only [hKey]
    have hbad : (!ek.isEmpty && decide (api_key ≠ some ek)) = true := by
      have h1 : ek.isEmpty = false := by
        rw [Bool.eq_false_iff]
        intro hc
        exact hNe ((String.isEmpty_iff _).mp hc)
      rw [h1]
      simp [hMiss]
    rw [if_pos hbad]
  · intro did dev hEq hT hSome hOpen
    subst hEq
    unfold telemetry_ingest
    rw [if_neg (by simp [hT])]
    simp only [Option.getD_some]
    rw [hSome]
    have hbad : (match alook dev.meta "api_key" with
        | some ek => !ek.isEmpty && decide (api_key ≠ some ek)
        | none => false) = false := by
      cases hOpen with
      | inl h0 => rw [h0]
      | inr h0 => rw [h0]; rfl
    simp only [hbad]
    rw [store_ok_of_some did _ st dev hSome]
    exact ⟨_, by rw [if_neg (by simp)]⟩

/-- Witness for C2: the four checks at concrete inputs — an empty id, an
unregistered id under an arbitrary key, a wrong key against stored
`"k1"`, and open-access ingestion on a device with no stored key. -/
theorem claim2_ingest_checks_witness :
    telemetry_ingest docW (some "") (some "x") none none "n"
        = .error .missingDeviceId ∧
    telemetry_ingest docW (some "z") (some "anything") none none "n"
        = .error .unknownDevice ∧
    telemetry_ingest docW (some "d") (some "bad") none none "n"
        = .error .invalidApiKey ∧
    (∃ st', telemetry_ingest docOpen (some "o") (some "whatever") none none "n"
        = .ok st') :=
  ⟨(claim2_ingest_checks docW (some "") (some "x") none none "n").1 (by decide),
   (claim2_ingest_checks docW (some "z") (some "anything") none none "n").2.1
      "z" rfl (by decide) (by decide),
   (claim2_ingest_checks docW (some "d") (some "bad") none none "n").2.2.1
      "d" devW "k1" rfl (by decide) (by decide) (by decide) (by decide) (by decide),
   (claim2_ingest_checks docOpen (some "o") (some "whatever") none none "n").2.2.2
      "o" devOpen rfl (by decide) (by decide) (Or.inl (by decide))⟩

/-- C5: a successful registration through the handler returns the supplied
device id and the fresh non-empty api key, inserts exactly one device
record under that id with `registered_at` set to the current time and
`meta.api_key` equal to the returned key, initializes an empty telemetry
bucket, and leaves every other key of the listing untouched.  `docInv`
(established for all reachable documents by C9) rules out a stale orphan
telemetry bucket. -/
theorem claim5_register_effect (st : Document) (did fid name : String)
    (meta0 : MetaMap) (api_key now : String) (st1 : Document)
    (retId retKey : String)
    (hinv : docInv st) (hkey : api_key ≠ "") (hdid : did ≠ "")
    (h : app_register st (some did) fid name meta0 api_key now
          = .ok (st1, retId, retKey)) :
    retId = did ∧ retKey = api_key ∧ retKey ≠ "" ∧
    ∃ drec : DeviceRecord,
      alook (list_devices st1) did = some drec ∧
      drec.registered_at = now ++ "Z" ∧
      alook drec.meta "api_key" = some api_key ∧
      alook st1.telemetry did = some [] ∧
      st1.devices.length = st.devices.length + 1 ∧
      (∀ k, k ≠ did → alook st1.devices k = alook st.devices k) ∧
      (∀ k, k ≠ did → alook st1.telemetry k = alook st.telemetry k) := by
  have htr : truthy (some did) = true := by
    have hemp : did.isEmpty = false := by
      rw [Bool.eq_false_iff]
      intro hc
      exact hdid ((String.isEmpty_iff _).mp hc)
    simp [truthy, hemp]
  simp only [app_register] at h
  rw [if_pos htr] at h
  simp only [Option.getD_some] at h
  cases hreg : register_device did
      ((dinsert meta0 "api_key" api_key).foldl
        (fun acc kv => dinsert acc kv.1 kv.2) [("name", name)]) now st with
  | error e => rw [hreg] at h; cases h
  | ok st' =>
      rw [hreg] at h
      injection h with h2
      have hst : st' = st1 := congrArg Prod.fst h2
      have hid : did = retId := congrArg (fun p => p.2.1) h2
      have hkey2 : api_key = retKey := congrArg (fun p => p.2.2) h2
      subst hst hid hkey2
      obtain ⟨hnone, hdev, htel⟩ := register_ok _ _ _ _ _ hreg
      have htelnone : alook st.telemetry did = none := by
        cases hx : alook st.telemetry did with
        | none => rfl
        | some w =>
            have hi := hinv did (by rw [hx]; rfl)
            rw [hnone] at hi
            simp at hi
      have htel2 : st'.telemetry = st.telemetry ++ [(did, [])] := by
        cases htel with
        | inl hcase => exact absurd htelnone hcase.1
        | inr hcase => exact hcase.2
      refine ⟨rfl, rfl, hkey,
        ⟨(dinsert meta0 "api_key" api_key).foldl
          (fun acc kv => dinsert acc kv.1 kv.2) [("name", name)], now ++ "Z"⟩,
        ?_, rfl, ?_, ?_, ?_, ?_, ?_⟩
      · unfold list_devices
        rw [hdev]
        exact alook_cons_self _ _ _
      · exact merged_meta_api_key meta0 name api_key
      · rw [htel2, alook_append_right _ _ _ htelnone]
        exact alook_cons_self _ _ _
      · rw [hdev]
        simp
      · intro k hk
        rw [hdev]
        exact alook_cons_ne _ _ _ _ (Ne.symm hk)
      · intro k hk
        rw [htel2]
        exact alook_append_single_ne _ _ _ _ (Ne.symm hk)

/-- Witness for C5: registering `"d1"` with name `"x"` and key `"key1"` on
the initial document produces exactly the expected document, listing and
bucket. -/
theorem claim5_register_effect_witness :
    "d1" = "d1" ∧ "key1" = "key1" ∧ "key1" ≠ "" ∧
    ∃ drec : DeviceRecord,
      alook (list_devices doc1App) "d1" = some drec ∧
      drec.registered_at = "t" ++ "Z" ∧
      alook drec.meta "api_key" = some "key1" ∧
      alook doc1App.telemetry "d1" = some [] ∧
      doc1App.devices.length = initialDoc.devices.length + 1 ∧
      (∀ k, k ≠ "d1" → alook doc1App.devices k = alook initialDoc.devices k) ∧
      (∀ k, k ≠ "d1" → alook doc1App.telemetry k = alook initialDoc.telemetry k) :=
  claim5_register_effect initialDoc "d1" "f" "x" [] "key1" "t" doc1App "d1" "key1"
    (fun k hk => by simp [initialDoc, alook] at hk) (by decide) (by decide) rfl

/-- C6: a successful ingestion appends exactly one record — with the
timestamp defaulted to the Z-suffixed current time when the caller
supplies none and the data defaulted to an empty mapping — to the
device's bucket, touches no other bucket, and a following unfiltered
query on a previously empty device returns exactly that record. -/
theorem claim6_ingest_record {DT : Type} [LinearOrder DT]
    (parse : String → Option DT) (st st1 : Document) (did : String)
    (api_key ts_opt : Option String) (data_opt : Option PayloadData)
    (now : String) (trec : TelemetryRecord)
    (htr : trec = ⟨(if truthy ts_opt then ts_opt.getD "" else now ++ "Z"),
                   data_opt.getD []⟩)
    (h : telemetry_ingest st (some did) api_key ts_opt data_opt now = .ok st1) :
    st1.devices = st.devices ∧
    (∀ old, alook st.telemetry did = some old →
        alook st1.telemetry did = some (old ++ [trec])) ∧
    (alook st.telemetry did = none → alook st1.telemetry did = some [trec]) ∧
    (∀ k, k ≠ did → alook st1.telemetry k = alook st.telemetry k) ∧
    ((alook st.telemetry did = none ∨ alook st.telemetry did = some []) →
        get_telemetry parse st1 did none none 100 = [trec]) := by
  unfold telemetry_ingest at h
  simp only [Option.getD_some] at h
  split at h
  · cases h
  · split at h
    · cases h
    · split at h
      · cases h
      · split at h
        · rename_i st' hstore
          injection h with h
          rw [h] at hstore
          rw [← htr] at hstore
          obtain ⟨-, hdevs, htels⟩ := store_ok _ _ _ _ hstore
          have hsome : ∀ old, alook st.telemetry did = some old →
              alook st1.telemetry did = some (old ++ [trec]) := by
            intro old hold
            rw [htels, hold]
            simp only [Option.getD_some]
            exact alook_aset_self _ _ _
          have hnone : alook st.telemetry did = none →
              alook st1.telemetry did = some [trec] := by
            intro hold
            rw [htels, hold]
            simp only [Option.getD_none, List.nil_append]
            exact alook_aset_self _ _ _
          refine ⟨hdevs, hsome, hnone, ?_, ?_⟩
          · intro k hk
            rw [htels]
            exact alook_aset_ne _ _ _ _ (Ne.symm hk)
          · intro hcase
            have hb1 : alook st1.telemetry did = some [trec] := by
              cases hcase with
              | inl h0 => exact hnone h0
              | inr h0 =>
                  have := hsome [] h0
                  simpa using this
            unfold get_telemetry
            rw [hb1]
            show pyTail (filterStage parse none none [trec]) 100 = [trec]
            unfold filterStage
            rw [if_neg (by decide)]
            exact pyTail_of_length_le _ _ (by norm_num)
        · cases h

/-- Witness for C6: open-access ingestion with no timestamp and no data
payload appends exactly `⟨"nowZ", []⟩` and the follow-up query returns
it. -/
theorem claim6_ingest_record_witness :
    docOpenIng.devices = docOpen.devices ∧
    (∀ old, alook docOpen.telemetry "o" = some old →
        alook docOpenIng.telemetry "o" = some (old ++ [⟨"nowZ", []⟩])) ∧
    (alook docOpen.telemetry "o" = none →
        alook docOpenIng.telemetry "o" = some [⟨"nowZ", []⟩]) ∧
    (∀ k, k ≠ "o" → alook docOpenIng.telemetry k = alook docOpen.telemetry k) ∧
    ((alook docOpen.telemetry "o" = none ∨ alook docOpen.telemetry "o" = some []) →
        get_telemetry parseNat docOpenIng "o" none none 100 = [⟨"nowZ", []⟩]) :=
  claim6_ingest_record parseNat docOpen docOpenIng "o" none none none "now"
    ⟨"nowZ", []⟩ (by decide) rfl

/-- C9: in every document reachable from the initial empty document
through the two write paths, every key of the telemetry mapping — empty
buckets included — is also a key of the devices mapping: buckets are
created only at registration or under the in-mutator device-existence
check, and devices are never deleted. -/
theorem claim9_telemetry_keys_registered (d : Document) (h : Reachable d) :
    docInv d := by
  induction h with
  | init =>
      intro k hk
      simp [initialDoc, alook] at hk
  | reg d d' id m now hd hreg ih =>
      obtain ⟨hnone, hdev, htel⟩ := register_ok id m now d d' hreg
      intro k hk
      by_cases hkid : id = k
      · subst hkid
        rw [hdev, alook_cons_self]
        rfl
      · rw [hdev, alook_cons_ne _ _ _ _ hkid]
        apply ih
        cases htel with
        | inl hcase =>
            rw [hcase.2] at hk
            exact hk
        | inr hcase =>
            rw [hcase.2, alook_append_single_ne _ _ _ _ hkid] at hk
            exact hk
  | ing d d' id p hd hstore ih =>
      obtain ⟨hsome, hdev, htel⟩ := store_ok id p d d' hstore
      intro k hk
      rw [hdev]
      by_cases hkid : id = k
      · subst hkid
        exact hsome
      · apply ih
        rw [htel, alook_aset_ne _ _ _ _ hkid] at hk
        exact hk

/-- Witness for C9: the invariant holds for the concrete document reached
by registering `"d1"` on the initial document. -/
theorem claim9_telemetry_keys_registered_witness : docInv doc1 :=
  claim9_telemetry_keys_registered doc1
    (Reachable.reg initialDoc doc1 "d1" [] "t" Reachable.init rfl)

/-- C10: the lock makes each write a single atomic read-modify-write, so
any concurrent run is some serialized order of the calls; in every order,
registrations with distinct unregistered ids all succeed and add exactly
one device each, and ingestions against one registered device all succeed
and append exactly their records with none dropped. -/
theorem claim10_serialized_runs :
    (∀ (st : Document) (ids : List String) (now : String),
        ids.Nodup → (∀ id ∈ ids, alook st.devices id = none) →
        ∃ st', regAll now st ids = some st' ∧
          st'.devices.length = st.devices.length + ids.length) ∧
    (∀ (st : Document) (did : String) (ps old : List TelemetryRecord),
        (alook st.devices did).isSome = true →
        alook st.telemetry did = some old →
        ∃ st', ingAll did st ps = some st' ∧
          alook st'.telemetry did = some (old ++ ps)) := by
  constructor
  · intro st ids now hnd hfresh
    induction ids generalizing st with
    | nil => exact ⟨st, rfl, by simp [regAll]⟩
    | cons id rest ih =>
        have hnone : alook st.devices id = none :=
          hfresh id (List.mem_cons_self _ _)
        have hreg : ∃ st1, register_device id [] now st = .ok st1 := by
          unfold register_device
          rw [hnone]
          exact ⟨_, rfl⟩
        obtain ⟨st1, hreg⟩ := hreg
        obtain ⟨-, hdev, -⟩ := register_ok _ _ _ _ _ hreg
        have hndrest : rest.Nodup := (List.nodup_cons.mp hnd).2
        have hidrest : id ∉ rest := (List.nodup_cons.mp hnd).1
        have hfresh1 : ∀ id' ∈ rest, alook st1.devices id' = none := by
          intro id' hmem
          rw [hdev, alook_cons_ne _ _ _ _ (fun hc => hidrest (by rw [hc]; exact hmem))]
          exact hfresh id' (List.mem_cons_of_mem _ hmem)
        obtain ⟨st', hrun, hlen⟩ := ih st1 hndrest hfresh1
        refine ⟨st', ?_, ?_⟩
        · unfold regAll
          rw [hreg]
          exact hrun
        · rw [hlen, hdev]
          simp only [List.length_cons]
          omega
  · intro st did ps old hdev hold
    induction ps generalizing st old with
    | nil => exact ⟨st, rfl, by simp [hold]⟩
    | cons p rest ih =>
        obtain ⟨dev, hdevEq⟩ := Option.isSome_iff_exists.mp hdev
        have hstore := store_ok_of_some did p st dev hdevEq
        rw [hold] at hstore
        simp only [Option.getD_some] at hstore
        have hdev1 : (alook (Document.mk st.devices
            (aset st.telemetry did (old ++ [p]))).devices did).isSome = true := by
          rw [show (Document.mk st.devices
            (aset st.telemetry did (old ++ [p]))).devices = st.devices from rfl]
          exact hdev
        have hold1 : alook (Document.mk st.devices
            (aset st.telemetry did (old ++ [p]))).telemetry did = some (old ++ [p]) :=
          alook_aset_self _ _ _
        obtain ⟨st', hrun, hfin⟩ := ih _ _ hdev1 hold1
        refine ⟨st', ?_, ?_⟩
        · unfold ingAll
          rw [hstore]
          exact hrun
        · rw [hfin]
          simp

/-- Witness for C10: two registrations with distinct fresh ids on the
initial document, and one ingestion against the registered device of the
five-record document, run to completion with the claimed counts. -/
theorem claim10_serialized_runs_witness :
    (∃ st', regAll "t" initialDoc ["a", "b"] = some st' ∧
        st'.devices.length = initialDoc.devices.length + 2) ∧
    (∃ st', ingAll "d" docW [⟨"9", []⟩] = some st' ∧
        alook st'.telemetry "d" = some (docWItems ++ [⟨"9", []⟩])) :=
  ⟨claim10_serialized_runs.1 initialDoc ["a", "b"] "t" (by decide) (by decide),
   claim10_serialized_runs.2 docW "d" [⟨"9", []⟩] docWItems (by decide) (by decide)⟩

end IotPlatform
